import Mathlib

/-!
Shallow embedding of the Form-Filler-Automation pipeline (Python sources under
src/) and proofs of the specification claims about it.

Strings are modelled as Lean strings; Python string operations (lower, strip,
substring membership, slicing, regex character-class substitutions) are given
explicit executable models below.  External collaborators (the rapidfuzz
scorer, the MiniLM embedding model, the regex engine applied to OCR text) are
modelled as oracle parameters, exactly at the call boundary the code uses.
-/

/-- Model of Python str.lower on a single character (ASCII range, as exercised
by the attribute and keyword data of the code). -/
def pyLowerChar (c : Char) : Char :=
  if 65 ≤ c.toNat ∧ c.toNat ≤ 90 then Char.ofNat (c.toNat + 32) else c

/-- Model of Python str.lower. -/
def pyLower (s : String) : String := ⟨s.data.map pyLowerChar⟩

/-- Characters stripped by Python str.strip and matched by the regex class \s. -/
def pyWhitespace (c : Char) : Bool :=
  c = ' ' || c = '\t' || c = '\n' || c = '\r' || c = '\x0b' || c = '\x0c'

/-- Model of Python str.strip on a character list. -/
def pyStripList (l : List Char) : List Char :=
  ((l.dropWhile pyWhitespace).reverse.dropWhile pyWhitespace).reverse

/-- Model of Python str.strip. -/
def pyStrip (s : String) : String := ⟨pyStripList s.data⟩

/-- Model of the Python substring test (needle in hay). -/
def pyIn (needle hay : String) : Bool := decide (needle.data <:+: hay.data)

/-- Model of re.sub applied with pattern \D and empty replacement: keep digits only.
Used by FormFiller.handle_input_mask, FormFiller._type_phone and
VerificationEngine._digits_only. -/
def digits_only (s : String) : String := ⟨s.data.filter Char.isDigit⟩

/-- One step of run collapsing: the Bool records whether the previous character
belonged to a run of the separator class. -/
def collapseRunsStep (p : Char → Bool) (rep : Char) (acc : List Char × Bool) (c : Char) :
    List Char × Bool :=
  if p c then (if acc.2 then acc else (rep :: acc.1, true)) else (c :: acc.1, false)

/-- Model of re.sub replacing every maximal run of characters of class p by the
single character rep (the code uses this with classes of separator characters). -/
def collapseRuns (p : Char → Bool) (rep : Char) (l : List Char) : List Char :=
  (l.foldl (collapseRunsStep p rep) ([], false)).1.reverse

/-- One step of re.split on runs: accumulates finished tokens, the current
token (reversed), and whether the previous character was a separator. -/
def splitRunsStep (p : Char → Bool) (acc : List (List Char) × List Char × Bool) (c : Char) :
    List (List Char) × List Char × Bool :=
  if p c then
    (if acc.2.2 then acc else (acc.2.1.reverse :: acc.1, [], true))
  else
    (acc.1, c :: acc.2.1, false)

/-- Model of re.split on a character class with a + quantifier: maximal runs of
separators delimit tokens; a leading or trailing run yields an empty token,
exactly as in Python. -/
def splitRuns (p : Char → Bool) (l : List Char) : List String :=
  let r := l.foldl (splitRunsStep p) ([], [], false)
  ((⟨r.2.1.reverse⟩ : String) :: r.1.map (fun t => (⟨t⟩ : String))).reverse

/-- Lookup in a Python dict modelled as an association list built left to
right: a later binding of the same key overwrites an earlier one. -/
def dictGetAux (d : List (String × String)) (k : String) : Option String :=
  d.foldl (fun acc kv => if kv.1 = k then some kv.2 else acc) none

/-- Python dict .get with default empty string. -/
def dictGet (d : List (String × String)) (k : String) : String := (dictGetAux d k).getD ""

/-- Python len on a string. -/
def pyLen (s : String) : Nat := s.data.length

/-- Python slice s[:n]. -/
def pyTake (n : Nat) (s : String) : String := ⟨s.data.take n⟩

/-- Python slice s[n:]. -/
def pyDrop (n : Nat) (s : String) : String := ⟨s.data.drop n⟩

/-- Python slice s[-n:]: the last n characters (all of s when it is shorter). -/
def pySliceLast (n : Nat) (s : String) : String := ⟨s.data.drop (s.data.length - n)⟩

/-! ## Fill Engine (src/core/filler.py) -/

/-- The mask table keys of FormFiller.handle_input_mask. -/
def maskTypes : List String := ["phone", "date", "ssn", "zip"]

/-- FormFiller.handle_input_mask (src/core/filler.py lines 193-231), modelled
as the string the function types into the field: none when the function
returns False without typing (unknown mask type, or no digits in the value),
some s when it types s and returns True.  The browser interactions
(click / select-all / delete and the type call itself) are the effect carrier;
the data transformation is exactly that of the source. -/
def handle_input_mask (value : String) (mask_type : String) : Option String :=
  if mask_type ∈ maskTypes then
    let digits := digits_only (pyStrip value)
    if digits = "" then none
    else if mask_type = "phone" then
      let d := pySliceLast 10 digits
      if pyLen d = 10 then
        some ("(" ++ pyTake 3 d ++ ") " ++ pyTake 3 (pyDrop 3 d) ++ "-" ++ pyDrop 6 d)
      else some d
    else if mask_type = "date" ∧ 8 ≤ pyLen digits then
      some (pyTake 2 digits ++ "/" ++ pyTake 2 (pyDrop 2 digits) ++ "/" ++ pyTake 4 (pyDrop 4 digits))
    else some digits
  else none

/-- The exact comparison of the option-scan loop in FormFiller._select_option
(src/core/filler.py line 156): the stripped label or the stripped value,
lowercased, equals the lowercased target. -/
def optExactCi (target : String) (o : String × String) : Bool :=
  decide (pyLower (pyStrip o.1) = target) || decide (pyLower (pyStrip o.2) = target)

/-- The substring comparison of the option-scan loop (line 159): the target
occurs in the stripped lowercased label or value. -/
def optContains (target : String) (o : String × String) : Bool :=
  pyIn target (pyLower (pyStrip o.1)) || pyIn target (pyLower (pyStrip o.2))

/-- The option scan of FormFiller._select_option (src/core/filler.py lines
147-163): walks the options in order with their index; a case-insensitive
exact match on stripped label or value returns immediately, a substring match
records the option and keeps scanning (so a later substring match overwrites
an earlier one).  Returns the index of the option the loop settles on. -/
def selectScan (target : String) : List (String × String) → Nat → Option Nat → Option Nat
  | [], _, best => best
  | o :: rest, i, best =>
    if optExactCi target o then some i
    else if optContains target o then selectScan target rest (i + 1) (some i)
    else selectScan target rest (i + 1) best

/-- FormFiller._select_option (src/core/filler.py lines 133-166) on a native
select whose options are (label, value) pairs, modelled as the index of the
option that ends up selected (none = the function returns False).  The first
two attempts are the select-by-label and select-by-value calls of the driver,
modelled as exact matches choosing the first matching option; the third is the
explicit scan selectScan. -/
def select_option (options : List (String × String)) (value : String) : Option Nat :=
  let vs := pyStrip value
  if vs = "" then none
  else
    match options.findIdx? (fun o => o.1 = vs) with
    | some i => some i
    | none =>
      match options.findIdx? (fun o => o.2 = vs) with
      | some i => some i
      | none => selectScan (pyLower vs) options 0 none

/-! ## Verification Engine (src/core/verifier.py) -/

/-- VerificationEngine._normalize_text (src/core/verifier.py lines 86-92):
strip, lowercase, then collapse every whitespace run to a single space. -/
def normalize_text (value : String) : String :=
  ⟨collapseRuns pyWhitespace ' ' (pyLower (pyStrip value)).data⟩

/-- VerificationEngine._is_match (src/core/verifier.py lines 98-128). -/
def is_match (actual_value expected_value : String) : Bool :=
  let actual := normalize_text actual_value
  let expected := normalize_text expected_value
  if expected = "" then true
  else if actual = "" then false
  else if actual = expected then true
  else if pyIn expected actual ∨ pyIn actual expected then true
  else if 5 ≤ pyLen actual ∧ pyTake (pyLen actual) expected = actual then true
  else if 5 ≤ pyLen expected ∧ pyTake (pyLen expected) actual = expected then true
  else
    let actual_digits := digits_only actual
    let expected_digits := digits_only expected
    if 7 ≤ pyLen expected_digits ∧ pyIn expected_digits actual_digits then true
    else if 7 ≤ pyLen actual_digits ∧ pyIn actual_digits expected_digits then true
    else false

/-! ## Field Classifier (src/core/field_classifier.py) -/

/-- FieldClassifier.FIELD_PATTERNS (src/core/field_classifier.py lines 39-71),
in the dict insertion order of the source. -/
def FIELD_PATTERNS : List (String × List String) :=
  [("first_name", ["first name", "firstname", "given name", "your first name", "fname", "f_name"]),
   ("last_name", ["last name", "lastname", "surname", "family name", "your last name", "lname", "l_name"]),
   ("name", ["name", "full name", "your name", "customer name", "contact name",
             "your full name", "fullname", "contact person", "applicant name"]),
   ("email", ["email", "e-mail", "mail address", "your email", "email address",
              "work email", "business email", "your e-mail"]),
   ("phone", ["phone", "mobile", "telephone", "phone number", "contact number",
              "tel", "cell", "your phone", "work phone", "mobile number"]),
   ("company", ["company", "organization", "business", "employer", "company name",
                "organization name", "business name", "your company", "company/organization"]),
   ("subject", ["subject", "title", "regarding", "reason for contact", "topic",
                "inquiry type", "reason", "nature of inquiry", "how can we help"]),
   ("message", ["message", "comment", "inquiry", "details", "your message",
                "comments", "additional info", "additional information", "description",
                "project details", "tell us more", "how can we help you"]),
   ("captcha", ["captcha", "security code", "verification", "i\x27m not a robot",
                "prove you are human", "anti-spam"]),
   ("dropdown", ["select", "choose", "option", "country", "state", "city"]),
   ("choice", ["checkbox", "radio", "option", "terms", "privacy", "consent"])]

/-- The captcha keyword list of FIELD_PATTERNS. -/
def captchaPatterns : List String :=
  ["captcha", "security code", "verification", "i\x27m not a robot",
   "prove you are human", "anti-spam"]

/-- External scoring collaborators of FieldClassifier.classify: the rapidfuzz
partial-ratio and token-set-ratio scorers and the MiniLM semantic classifier
of src/core/semantic_classifier.py (whose embedding model is an external
collaborator; classify consumes only its (field_type, confidence) result,
with None modelled as none). -/
structure ClassifierOracles where
  fuzzPart : String → String → Nat
  fuzzTokenSet : String → String → Nat
  semantic : String → Option (String × Nat)

/-- The dict comprehension at src/core/field_classifier.py line 80: keep
attributes with non-empty values, lowercasing keys and values. -/
def normAttrs (attributes : List (String × String)) : List (String × String) :=
  attributes.filterMap (fun kv => if kv.2 = "" then none else some (pyLower kv.1, pyLower kv.2))

/-- attr_blob_raw (src/core/field_classifier.py lines 81-89): the seven
attribute texts joined by single spaces, stripped. -/
def attrBlobRaw (attrs : List (String × String)) : String :=
  pyStrip (String.intercalate " "
    [dictGet attrs "name", dictGet attrs "id", dictGet attrs "placeholder",
     dictGet attrs "aria-label", dictGet attrs "label_text",
     dictGet attrs "nearby_text", dictGet attrs "class"])

/-- The separator class of the re.sub at line 90 of field_classifier.py. -/
def blobSep (c : Char) : Bool := c = '_' || c = '-' || c = '.' || c = '/'

/-- attr_blob (line 90): runs of separator characters replaced by one space. -/
def attrBlob (attrs : List (String × String)) : String :=
  ⟨collapseRuns blobSep ' ' (attrBlobRaw attrs).data⟩

/-- combined_text (line 91). -/
def combinedText (text_lower : String) (attrs : List (String × String)) : String :=
  pyStrip (attrBlob attrs ++ " " ++ text_lower)

/-- The captcha hard-stop test of classify stage 1 (lines 98-100): some
captcha keyword occurs in the combined text. -/
def captchaHit (combined : String) : Bool :=
  captchaPatterns.any (fun p => pyIn p combined)

/-- The attribute keyword scan of classify stage 3 (lines 131-134): the first
(field, pattern) pair in FIELD_PATTERNS order whose pattern occurs in the
attribute blob. -/
def patternTableHit (blob : String) : Option String :=
  (FIELD_PATTERNS.find? (fun fp => fp.2.any (fun p => pyIn p blob))).map (fun fp => fp.1)

/-- The separator class of the re.split at line 159 of field_classifier.py. -/
def tokenSep (c : Char) : Bool := c = '_' || c = '-' || c = '.' || pyWhitespace c

/-- The token set of classify stage 4b (line 159). -/
def attrTokens (blob_raw : String) : List String :=
  splitRuns tokenSep (pyLower blob_raw).data

/-- The fuzzy scan shared by classify stages 4 and 6 (lines 143-156 and
182-194): for every (field, pattern) pair except captcha and choice, score
max(partial-ratio, token-set-ratio) against the combined text; keep the first
field reaching a strictly higher score that also clears the floor. -/
def fuzzyBestPat (H : ClassifierOracles) (combined : String) (floor : Nat)
    (field : String) (best : Option (String × Nat)) (p : String) : Option (String × Nat) :=
  let score := max (H.fuzzPart p combined) (H.fuzzTokenSet p combined)
  let bestScore := (best.map (fun b => b.2)).getD 0
  if bestScore < score ∧ floor ≤ score then some (field, score) else best

/-- The full fuzzy scan over FIELD_PATTERNS. -/
def fuzzyBest (H : ClassifierOracles) (combined : String) (floor : Nat) :
    Option (String × Nat) :=
  FIELD_PATTERNS.foldl (fun best fp =>
    if fp.1 = "captcha" ∨ fp.1 = "choice" then best
    else fp.2.foldl (fuzzyBestPat H combined floor fp.1) best) none

/-- Stages 2a onward of FieldClassifier.classify (src/core/field_classifier.py
lines 119-204): the textarea/select hard stops, the attribute keyword stages,
the fuzzy scans, the token fallback, the semantic stage, and the final
element-type heuristics.  Reached only when the button, captcha and
type-attribute stages above it did not return. -/
def classifyRest (H : ClassifierOracles) (text_lower element_type : String)
    (attrs : List (String × String)) (min_confidence : Nat) (use_minilm : Bool) :
    String × Nat :=
  let attr_blob_raw := attrBlobRaw attrs
  let attr_blob := attrBlob attrs
  let combined_text := combinedText text_lower attrs
  let attr_type := dictGet attrs "type"
  if element_type = "textarea" then ("message", 95)
  else if element_type = "select" then ("dropdown", 95)
  else if pyIn "full name" attr_blob ∨
      (pyIn "your name" attr_blob ∧ ¬ pyIn "first name" attr_blob) then ("name", 92)
  else match patternTableHit attr_blob with
  | some field => (field, 90)
  | none =>
    let effective_min := if attr_blob_raw ≠ "" then min 60 min_confidence else min_confidence
    let notChoiceType := ¬ (attr_type = "checkbox" ∨ attr_type = "radio")
    match (if combined_text ≠ "" ∧ notChoiceType then fuzzyBest H combined_text effective_min else none) with
    | some best => best
    | none =>
      let tokens := attrTokens attr_blob_raw
      if tokens.contains "name" ∧
          ¬ (["first", "last", "surname", "given", "family"].any tokens.contains) then ("name", 75)
      else if tokens.contains "email" ∨ tokens.contains "mail" then ("email", 80)
      else if tokens.contains "phone" ∨ tokens.contains "tel" ∨ tokens.contains "mobile" then ("phone", 80)
      else if tokens.contains "company" ∨ tokens.contains "organization" ∨ tokens.contains "business" then ("company", 80)
      else if tokens.contains "message" ∨ tokens.contains "comment" ∨ tokens.contains "inquiry" ∨ tokens.contains "details" then ("message", 75)
      else match (if use_minilm ∧ combined_text ≠ "" ∧ notChoiceType then H.semantic combined_text else none) with
      | some sem => sem
      | none =>
        match (if combined_text ≠ "" ∧ notChoiceType then fuzzyBest H combined_text 50 else none) with
        | some best => best
        | none =>
          if element_type = "textarea" then ("message", 60)
          else if element_type = "select" then ("dropdown", 70)
          else ("unknown", 0)

/-- FieldClassifier.classify after its two normalization lines (lines 79-80):
the button hard stop, the captcha hard stop, the HTML type-attribute mapping,
then the rest of the cascade (classifyRest).  The if attr_type:
guard at line 104 is subsumed, since the empty string equals none of the
compared literals.  The log_unknown branch only appends to a diagnostic file
and does not affect the returned pair, so it is not part of the value
model. -/
def classifyNorm (H : ClassifierOracles) (text_lower : String) (element_type : String)
    (attrs : List (String × String)) (min_confidence : Nat) (use_minilm : Bool) :
    String × Nat :=
  if element_type = "button" then ("submit", 98)
  else if captchaHit (combinedText text_lower attrs) then ("captcha", 100)
  else
    let attr_type := dictGet attrs "type"
    if attr_type = "email" then ("email", 95)
    else if attr_type = "tel" ∨ attr_type = "phone" then ("phone", 95)
    else if attr_type = "submit" ∨ attr_type = "button" ∨ attr_type = "reset" then ("submit", 98)
    else if attr_type = "file" ∨ attr_type = "image" then ("file", 98)
    else if attr_type = "search" then ("subject", 70)
    else if attr_type = "checkbox" ∨ attr_type = "radio" then ("choice", 95)
    else classifyRest H text_lower element_type attrs min_confidence use_minilm

/-- FieldClassifier.classify (src/core/field_classifier.py lines 73-204):
lowercase the OCR text, normalize the attribute dict, then run the cascade. -/
def classify (H : ClassifierOracles) (text : String) (element_type : String)
    (attributes : List (String × String)) (min_confidence : Nat) (use_minilm : Bool) :
    String × Nat :=
  classifyNorm H (pyLower text) element_type (normAttrs attributes) min_confidence use_minilm

/-- The dom sub-record of a resolved element as consumed by
FieldClassifier.should_skip_field: resolved tag type and raw attribute dict. -/
structure DomInfo where
  type : String
  attributes : List (String × String)

/-- The resolved-element record fields consumed by should_skip_field. -/
structure ElementInfo where
  dom : DomInfo
  failed_attempts : Nat

/-- FieldClassifier.should_skip_field (src/core/field_classifier.py lines
206-234), with the sequence of early returns of the source. -/
def should_skip_field (field_type : String) (e : ElementInfo) : Bool :=
  if field_type ∈ ["captcha", "button", "submit", "file"] then true
  else
    let attr_type := pyLower (dictGet e.dom.attributes "type")
    let dom_type := pyLower e.dom.type
    if field_type = "choice" ∨ attr_type ∈ ["checkbox", "radio"] then true
    else if ¬ (dom_type ∈ ["input", "textarea", "select"]) then true
    else if 2 ≤ e.failed_attempts then true
    else if dictGet e.dom.attributes "type" = "hidden" then true
    else false

/-! ## Submission outcome signal (src/main.py, AutomatedFormFiller._post_submit_ocr_signal) -/

/-- The weighted success patterns of _post_submit_ocr_signal (src/main.py
lines 674-684), as (label, weight); the regex itself is applied by the
external re engine, modelled by a match oracle over labels. -/
def successPatterns : List (String × Nat) :=
  [("thank_you", 3), ("thanks_for_contacting", 3), ("message_sent", 3),
   ("form_submitted", 3), ("submission_received", 3), ("we_will_contact", 3),
   ("api_json", 2), ("api_form_payload", 2), ("submitted_word", 1)]

/-- The weighted failure patterns of _post_submit_ocr_signal (src/main.py
lines 685-697). -/
def failurePatterns : List (String × Nat) :=
  [("field_error", 4), ("required_fields", 2), ("field_required", 3),
   ("invalid_input", 2), ("enter_valid_value", 2), ("please_choose", 1),
   ("please_select", 1), ("check_try_again", 3), ("captcha", 4),
   ("verification_failed", 3), ("something_wrong", 3)]

/-- The score accumulation loops of _post_submit_ocr_signal (src/main.py lines
699-711): sum the weights of the patterns the regex engine matched in the OCR
text blob.  The oracle m tells, per pattern label, whether re.search found the
pattern in the text. -/
def patternScore (pats : List (String × Nat)) (m : String → Bool) : Nat :=
  (pats.filter (fun p => m p.1)).foldl (fun acc p => acc + p.2) 0

/-- The outcome decision of _post_submit_ocr_signal (src/main.py lines
713-723), as the (success, failure) flag pair. -/
def outcomeFlags (success_score failure_score : Nat) : Bool × Bool :=
  if 3 ≤ success_score ∧ 3 ≤ failure_score then
    if success_score ≤ failure_score then (false, true) else (true, false)
  else if 3 ≤ success_score then (true, false)
  else if 3 ≤ failure_score then (false, true)
  else (false, false)

/-- AutomatedFormFiller._post_submit_ocr_signal (src/main.py lines 660-746)
for a readable screenshot: the success/failure flags computed from the two
weighted pattern scores over the OCR text.  ms and mf are the regex match
oracles for the success and failure pattern tables. -/
def post_submit_ocr_signal (ms mf : String → Bool) : Bool × Bool :=
  outcomeFlags (patternScore successPatterns ms) (patternScore failurePatterns mf)

/-! ## Geometry transforms (src/core/dom_mapper.py) -/

/-- Model of Python int() applied to a rational: truncation toward zero. -/
def pyInt (q : ℚ) : ℤ := if 0 ≤ q then ⌊q⌋ else ⌈q⌉

/-- The browser transform state read by DOMMapper: device pixel ratio and
scroll offsets. -/
structure Transforms where
  dpr : ℚ
  scrollX : ℚ
  scrollY : ℚ

/-- The screenshot-pixel to viewport conversion of
DOMMapper.get_element_with_transforms (src/core/dom_mapper.py lines 29-38):
add the crop origin, divide by dpr to reach CSS pixels, subtract scroll; the
box extent divides by dpr (the code uses w/dpr and h/dpr to form the center). -/
def screenshot_to_viewport (t : Transforms) (ox oy : ℤ) (box : ℤ × ℤ × ℤ × ℤ) :
    ℚ × ℚ × ℚ × ℚ :=
  let x : ℚ := box.1
  let y : ℚ := box.2.1
  let w : ℚ := box.2.2.1
  let h : ℚ := box.2.2.2
  (((x + ox) / t.dpr) - t.scrollX, ((y + oy) / t.dpr) - t.scrollY, w / t.dpr, h / t.dpr)

/-- The viewport to screenshot-pixel conversion of DOMMapper._collect_dom_items
(src/core/dom_mapper.py lines 249-254): multiply by dpr after adding scroll,
truncate to int, subtract the crop origin. -/
def viewport_to_screenshot (t : Transforms) (ox oy : ℤ) (vbox : ℚ × ℚ × ℚ × ℚ) :
    ℤ × ℤ × ℤ × ℤ :=
  (pyInt ((vbox.1 + t.scrollX) * t.dpr) - ox,
   pyInt ((vbox.2.1 + t.scrollY) * t.dpr) - oy,
   pyInt (vbox.2.2.1 * t.dpr),
   pyInt (vbox.2.2.2 * t.dpr))

/-! ## Greedy IoU overlap suppression (src/core/vision.py _dedupe_boxes and
src/core/dom_mapper.py _deduplicate_detections) -/

/-- A detection box in (x, y, w, h) form together with its payload (the shape
guess in vision.py, the optional DOM metadata in dom_mapper.py). -/
def DetBox (α : Type) : Type := (ℚ × ℚ × ℚ × ℚ) × α

/-- The corner-form area used by both suppression routines:
(x2 - x1) * (y2 - y1) for corners (x, y, x + w, y + h). -/
def boxArea {α : Type} (b : DetBox α) : ℚ := b.1.2.2.1 * b.1.2.2.2

/-- The clipped intersection area of two boxes, as computed inside the
suppression loops. -/
def boxInter {α : Type} (a b : DetBox α) : ℚ :=
  let ax1 := a.1.1
  let ay1 := a.1.2.1
  let ax2 := a.1.1 + a.1.2.2.1
  let ay2 := a.1.2.1 + a.1.2.2.2
  let bx1 := b.1.1
  let by1 := b.1.2.1
  let bx2 := b.1.1 + b.1.2.2.1
  let by2 := b.1.2.1 + b.1.2.2.2
  max 0 (min ax2 bx2 - max ax1 bx1) * max 0 (min ay2 by2 - max ay1 by1)

/-- The intersection-over-union ratio with the 1e-6 smoothing term of the
source. -/
def boxIou {α : Type} (a b : DetBox α) : ℚ :=
  boxInter a b / (boxArea a + boxArea b - boxInter a b + 1 / 1000000)

/-- One greedy pass of the suppression loop: keep the head of the area-sorted
list, drop every later box whose IoU with it reaches the threshold, recurse. -/
def nmsGo {α : Type} (t : ℚ) : List (DetBox α) → List (DetBox α)
  | [] => []
  | b :: rest => b :: nmsGo t (rest.filter (fun c => boxIou b c < t))
termination_by l => l.length
decreasing_by
  simp only [List.length_cons]
  exact Nat.lt_succ_of_le (List.length_filter_le _ _)

/-- The descending area comparison realized by np.argsort(areas)[::-1]. -/
def areaDesc {α : Type} (a b : DetBox α) : Bool := boxArea b ≤ boxArea a

/-- UIElementDetector._dedupe_boxes (src/core/vision.py lines 86-113) and
DOMMapper._deduplicate_detections (src/core/dom_mapper.py lines 483-511):
sort the detections by area descending, then run the greedy IoU suppression
pass; vision.py calls this with threshold 0.45, dom_mapper.py with 0.3. -/
def dedupe_boxes {α : Type} (t : ℚ) (boxes : List (DetBox α)) : List (DetBox α) :=
  nmsGo t (boxes.mergeSort areaDesc)

/-! ## Helper lemmas -/

lemma pyLen_pos_of_le {n : Nat} {s : String} (h : n ≤ pyLen s) (hn : 0 < n) : s ≠ "" := by
  intro he
  subst he
  simp only [pyLen, String.data, List.length_nil] at h
  omega

lemma pyLen_pySliceLast {n : Nat} {s : String} (h : n ≤ pyLen s) :
    pyLen (pySliceLast n s) = n := by
  simp only [pyLen, pySliceLast, List.length_drop] at h ⊢
  omega

/-! ## C1: post-submit OCR outcome decision -/

/-- C1.  For every post-submit OCR text (abstracted by the per-pattern regex
match oracles ms and mf), the submission outcome flag pair is a function of
the weighted success score and the weighted failure score as the claim
states: both scores at least 3 means the higher score wins with ties
classified as failure, exactly one score at least 3 means that outcome wins,
and when neither reaches 3 neither flag is set. -/
theorem post_submit_signal_spec (ms mf : String → Bool) :
    post_submit_ocr_signal ms mf =
      (if 3 ≤ patternScore successPatterns ms ∧ 3 ≤ patternScore failurePatterns mf then
        (if patternScore failurePatterns mf < patternScore successPatterns ms then (true, false)
         else (false, true))
       else if 3 ≤ patternScore successPatterns ms then (true, false)
       else if 3 ≤ patternScore failurePatterns mf then (false, true)
       else (false, false)) := by
  unfold post_submit_ocr_signal outcomeFlags
  split_ifs <;> first | rfl | omega

/-! ## C4: input-mask formatting -/

/-- C4.  Phone-mask handling strips the value to digits, keeps only the last
10, and when exactly 10 remain types the string (DDD) DDD-DDDD; the raw value
5551234567 produces (555) 123-4567.  Date-mask handling types the DD/MM/YYYY
rendering exactly when at least 8 digits are present, and types the plain
digit string (or nothing at all) otherwise, so a slash-formatted date is
produced only in the at-least-8-digit case. -/
theorem handle_input_mask_spec (v : String) :
    (10 ≤ pyLen (digits_only (pyStrip v)) →
      handle_input_mask v "phone" =
        some ("(" ++ pyTake 3 (pySliceLast 10 (digits_only (pyStrip v))) ++ ") " ++
          pyTake 3 (pyDrop 3 (pySliceLast 10 (digits_only (pyStrip v)))) ++ "-" ++
          pyDrop 6 (pySliceLast 10 (digits_only (pyStrip v))))) ∧
    handle_input_mask "5551234567" "phone" = some "(555) 123-4567" ∧
    (8 ≤ pyLen (digits_only (pyStrip v)) →
      handle_input_mask v "date" =
        some (pyTake 2 (digits_only (pyStrip v)) ++ "/" ++
          pyTake 2 (pyDrop 2 (digits_only (pyStrip v))) ++ "/" ++
          pyTake 4 (pyDrop 4 (digits_only (pyStrip v))))) ∧
    (pyLen (digits_only (pyStrip v)) < 8 →
      handle_input_mask v "date" = none ∨
        handle_input_mask v "date" = some (digits_only (pyStrip v))) := by
  refine ⟨?_, by decide, ?_, ?_⟩
  · intro h
    have hne : digits_only (pyStrip v) ≠ "" := pyLen_pos_of_le h (by omega)
    have hlen : pyLen (pySliceLast 10 (digits_only (pyStrip v))) = 10 :=
      pyLen_pySliceLast (by omega)
    simp [handle_input_mask, maskTypes, hne, hlen]
  · intro h
    have hne : digits_only (pyStrip v) ≠ "" := pyLen_pos_of_le h (by omega)
    simp [handle_input_mask, maskTypes, hne, h]
  · intro h
    by_cases hne : digits_only (pyStrip v) = ""
    · left
      simp [handle_input_mask, maskTypes, hne]
    · right
      have h8 : ¬ (8 ≤ pyLen (digits_only (pyStrip v))) := by omega
      simp [handle_input_mask, maskTypes, hne, h8]

/-- Witness for C4 at the concrete raw value 15551234567: eleven digits, so
the phone mask keeps the last ten and the date mask sees at least eight. -/
theorem handle_input_mask_spec_witness :
    handle_input_mask "15551234567" "phone" = some "(555) 123-4567" ∧
    handle_input_mask "15551234567" "date" = some "15/55/1234" := by
  have h := handle_input_mask_spec "15551234567"
  exact ⟨(h.1 (by decide)).trans (by decide), (h.2.2.1 (by decide)).trans (by decide)⟩

/-! ## C7: coordinate round-trip -/

lemma pyInt_intCast (z : ℤ) : pyInt (z : ℚ) = z := by
  unfold pyInt
  split_ifs <;> simp

/-- C7.  For every screenshot-pixel box and every transform state with
positive device pixel ratio, converting the box to viewport space (as
DOMMapper.get_element_with_transforms does) and back to screenshot-pixel
space (as DOMMapper._collect_dom_items does) recovers the original box
exactly, hence in particular to within one pixel per coordinate. -/
theorem dom_mapper_roundtrip (t : Transforms) (ox oy x y w h : ℤ) (hd : 0 < t.dpr) :
    viewport_to_screenshot t ox oy (screenshot_to_viewport t ox oy (x, y, w, h)) =
      (x, y, w, h) := by
  have hne : t.dpr ≠ 0 := ne_of_gt hd
  simp only [screenshot_to_viewport, viewport_to_screenshot]
  have hx : ((x : ℚ) + (ox : ℚ)) / t.dpr - t.scrollX + t.scrollX = ((x + ox : ℤ) : ℚ) / t.dpr := by
    push_cast
    ring
  have hy : ((y : ℚ) + (oy : ℚ)) / t.dpr - t.scrollY + t.scrollY = ((y + oy : ℤ) : ℚ) / t.dpr := by
    push_cast
    ring
  rw [hx, hy, div_mul_cancel₀ _ hne, div_mul_cancel₀ _ hne,
    div_mul_cancel₀ _ hne, div_mul_cancel₀ _ hne,
    pyInt_intCast, pyInt_intCast, pyInt_intCast, pyInt_intCast]
  simp only [Prod.mk.injEq]
  exact ⟨by omega, by omega, trivial⟩

/-- Witness for C7 at dpr 2, scroll (5, 7), crop origin (3, 4) and the box
(10, 20, 30, 40). -/
theorem dom_mapper_roundtrip_witness :
    viewport_to_screenshot ⟨2, 5, 7⟩ 3 4 (screenshot_to_viewport ⟨2, 5, 7⟩ 3 4 (10, 20, 30, 40)) =
      (10, 20, 30, 40) :=
  dom_mapper_roundtrip ⟨2, 5, 7⟩ 3 4 10 20 30 40 (by norm_num)

/-! ## C9: the skip gate -/

/-- The flat disjunction the claim states for should_skip_field, from the spec
wording: field type among the five named skip types, checkbox or radio type
attribute, resolved tag outside the three fillable tags, at least two failed
attempts, or a literal hidden type attribute. -/
def ClaimSkip (field_type : String) (e : ElementInfo) : Prop :=
  field_type ∈ ["captcha", "button", "submit", "file", "choice"] ∨
  pyLower (dictGet e.dom.attributes "type") ∈ ["checkbox", "radio"] ∨
  ¬ pyLower e.dom.type ∈ ["input", "textarea", "select"] ∨
  2 ≤ e.failed_attempts ∨
  dictGet e.dom.attributes "type" = "hidden"

/-- C9.  should_skip_field returns true exactly when the claimed disjunction
holds; in particular a hidden type attribute or two accumulated failures
always force a skip, whatever the classification was. -/
theorem should_skip_field_spec (field_type : String) (e : ElementInfo) :
    should_skip_field field_type e = true ↔ ClaimSkip field_type e := by
  unfold should_skip_field ClaimSkip
  split_ifs <;> simp_all
  all_goals (first
    | tauto
    | (rw [eq_false (show ¬ 2 ≤ e.failed_attempts by omega)]; tauto))

/-! ## C8: greedy IoU suppression idempotence -/

lemma boxInter_comm {α : Type} (a b : DetBox α) : boxInter a b = boxInter b a := by
  simp only [boxInter]
  rw [min_comm, max_comm a.1.1, min_comm (a.1.2.1 + a.1.2.2.2), max_comm a.1.2.1]

lemma boxIou_comm {α : Type} (a b : DetBox α) : boxIou a b = boxIou b a := by
  simp only [boxIou]
  rw [boxInter_comm, add_comm (boxArea a)]

lemma nmsGo_sublist_fuel {α : Type} (t : ℚ) :
    ∀ (n : Nat) (l : List (DetBox α)), l.length ≤ n → (nmsGo t l).Sublist l := by
  intro n
  induction n with
  | zero =>
    intro l hl
    cases l with
    | nil => simp [nmsGo]
    | cons b rest => simp at hl
  | succ n ih =>
    intro l hl
    cases l with
    | nil => simp [nmsGo]
    | cons b rest =>
      rw [nmsGo]
      have hlen : (rest.filter (fun c => boxIou b c < t)).length ≤ n := by
        refine le_trans (List.length_filter_le _ _) ?_
        simp only [List.length_cons] at hl
        omega
      have h1 : (nmsGo t (rest.filter (fun c => boxIou b c < t))).Sublist
          (rest.filter (fun c => boxIou b c < t)) := ih _ hlen
      exact List.Sublist.cons₂ b (h1.trans (List.filter_sublist rest))

lemma nmsGo_sublist {α : Type} (t : ℚ) (l : List (DetBox α)) : (nmsGo t l).Sublist l :=
  nmsGo_sublist_fuel t l.length l le_rfl

lemma nmsGo_pairwise_fuel {α : Type} (t : ℚ) :
    ∀ (n : Nat) (l : List (DetBox α)), l.length ≤ n →
      (nmsGo t l).Pairwise (fun a b => boxIou a b < t) := by
  intro n
  induction n with
  | zero =>
    intro l hl
    cases l with
    | nil => simp [nmsGo]
    | cons b rest => simp at hl
  | succ n ih =>
    intro l hl
    cases l with
    | nil => simp [nmsGo]
    | cons b rest =>
      rw [nmsGo]
      have hlen : (rest.filter (fun c => boxIou b c < t)).length ≤ n := by
        refine le_trans (List.length_filter_le _ _) ?_
        simp only [List.length_cons] at hl
        omega
      refine List.pairwise_cons.mpr ⟨?_, ih _ hlen⟩
      intro c hc
      have hc2 : c ∈ rest.filter (fun c => boxIou b c < t) :=
        (nmsGo_sublist_fuel t n _ hlen).subset hc
      exact of_decide_eq_true (List.mem_filter.mp hc2).2

lemma nmsGo_pairwise {α : Type} (t : ℚ) (l : List (DetBox α)) :
    (nmsGo t l).Pairwise (fun a b => boxIou a b < t) :=
  nmsGo_pairwise_fuel t l.length l le_rfl

lemma nmsGo_eq_self {α : Type} (t : ℚ) (l : List (DetBox α))
    (h : l.Pairwise (fun a b => boxIou a b < t)) : nmsGo t l = l := by
  induction l with
  | nil => simp [nmsGo]
  | cons b rest ih =>
    rw [nmsGo]
    have hfilter : rest.filter (fun c => boxIou b c < t) = rest :=
      List.filter_eq_self.mpr (fun c hc =>
        decide_eq_true ((List.pairwise_cons.mp h).1 c hc))
    rw [hfilter, ih (List.pairwise_cons.mp h).2]

/-- C8.  Greedy IoU overlap suppression is idempotent: running the
suppression on its own output removes nothing (the second output is a
permutation of the first, which a set-level reading makes the same set), and
equivalently every pair of surviving boxes has IoU strictly below the
threshold.  Proven for every threshold, so in particular for the 0.45 used in
vision.py and the 0.3 used in dom_mapper.py. -/
theorem dedupe_boxes_idempotent {α : Type} (t : ℚ) (l : List (DetBox α)) :
    List.Perm (dedupe_boxes t (dedupe_boxes t l)) (dedupe_boxes t l) ∧
    (dedupe_boxes t l).Pairwise (fun a b => boxIou a b < t) := by
  have hpw : (dedupe_boxes t l).Pairwise (fun a b => boxIou a b < t) :=
    nmsGo_pairwise t _
  refine ⟨?_, hpw⟩
  have hperm : List.Perm ((dedupe_boxes t l).mergeSort areaDesc) (dedupe_boxes t l) :=
    List.mergeSort_perm _ _
  have hsymm : ∀ {x y : DetBox α}, boxIou x y < t → boxIou y x < t := by
    intro x y hxy
    rwa [boxIou_comm]
  have hpw2 : ((dedupe_boxes t l).mergeSort areaDesc).Pairwise (fun a b => boxIou a b < t) :=
    (List.Perm.pairwise_iff hsymm hperm).mpr hpw
  have hdef : dedupe_boxes t (dedupe_boxes t l) =
      nmsGo t ((dedupe_boxes t l).mergeSort areaDesc) := rfl
  rw [hdef, nmsGo_eq_self t _ hpw2]
  exact hperm

/-! ## C3: verification match policy -/

lemma pyTake_len_eq_iff (x y : String) : pyTake (pyLen x) y = x ↔ x.data <+: y.data := by
  rw [List.prefix_iff_eq_take]
  constructor
  · intro h
    have hdata : (pyTake (pyLen x) y).data = x.data := by rw [h]
    simpa [pyTake, pyLen] using hdata.symm
  · intro h
    apply String.ext
    simpa [pyTake, pyLen] using h.symm

/-- The acceptance rules the claim lists for the verification matcher, on
already-normalized strings: equality, substring containment either direction,
prefix-truncation tolerance when the shorter string has at least 5
characters, digit-only containment when the contained digit string has at
least 7 digits.  Stated from the specification wording for comparison with
is_match. -/
def matchRules (actual expected : String) : Bool :=
  decide (actual = expected) || pyIn expected actual || pyIn actual expected ||
  (decide (5 ≤ pyLen actual) && decide (actual.data <+: expected.data)) ||
  (decide (5 ≤ pyLen expected) && decide (expected.data <+: actual.data)) ||
  (decide (7 ≤ pyLen (digits_only expected)) && pyIn (digits_only expected) (digits_only actual)) ||
  (decide (7 ≤ pyLen (digits_only actual)) && pyIn (digits_only actual) (digits_only expected))

/-- The matcher of the claim read literally: empty expected always accepts, and
otherwise any rule of the list accepts. -/
def claimMatchListed (a e : String) : Bool :=
  decide (normalize_text e = "") || matchRules (normalize_text a) (normalize_text e)

/-- The amended matcher: as claimMatchListed, but every rule other than the
empty-expected rule additionally requires a nonempty normalized actual
value. -/
def claimMatchAmended (a e : String) : Bool :=
  decide (normalize_text e = "") ||
    (!decide (normalize_text a = "") && matchRules (normalize_text a) (normalize_text e))

/-- C3 counterexample: with an empty actual value and expected value x, the
code rejects, but the claimed rule list accepts (the empty string is a
substring of x), so the claimed "accepts exactly" characterization fails. -/
theorem is_match_cex : is_match "" "x" = false ∧ claimMatchListed "" "x" = true := by
  constructor
  · decide
  · decide

/-- C3 (amended to require a nonempty normalized actual value for every rule
except the empty-expected rule).  is_match accepts exactly the amended rule
list; in particular expected 555-123-4567 matches actual +1 (555) 123-4567,
and an expected message longer than fifty characters matches its own
first-40-character truncation. -/
theorem is_match_spec (a e : String) :
    is_match a e = claimMatchAmended a e ∧
    is_match "+1 (555) 123-4567" "555-123-4567" = true ∧
    50 < pyLen "A very long message exceeding fifty characters truncated by maxlength" ∧
    is_match (pyTake 40 "A very long message exceeding fifty characters truncated by maxlength")
      "A very long message exceeding fifty characters truncated by maxlength" = true := by
  refine ⟨?_, by decide, by decide, by decide⟩
  simp only [is_match, claimMatchAmended, matchRules]
  by_cases h1 : normalize_text e = ""
  · simp [h1]
  by_cases h2 : normalize_text a = ""
  · simp [h1, h2]
  by_cases h3 : normalize_text a = normalize_text e
  · simp [h1, h2, h3]
  by_cases h4 : pyIn (normalize_text e) (normalize_text a) = true
  · simp [h1, h2, h3, h4]
  by_cases h5 : pyIn (normalize_text a) (normalize_text e) = true
  · simp [h1, h2, h3, h4, h5]
  by_cases h6 : 5 ≤ pyLen (normalize_text a)
  · by_cases h7 : (normalize_text a).data <+: (normalize_text e).data
    · simp [h1, h2, h3, h4, h5, h6, h7, pyTake_len_eq_iff]
    · by_cases h8 : 5 ≤ pyLen (normalize_text e)
      · by_cases h9 : (normalize_text e).data <+: (normalize_text a).data
        · simp [h1, h2, h3, h4, h5, h6, h7, h8, h9, pyTake_len_eq_iff]
        · simp [h1, h2, h3, h4, h5, h6, h7, h8, h9, pyTake_len_eq_iff]
      · simp [h1, h2, h3, h4, h5, h6, h7, h8, pyTake_len_eq_iff]
  · by_cases h8 : 5 ≤ pyLen (normalize_text e)
    · by_cases h9 : (normalize_text e).data <+: (normalize_text a).data
      · simp [h1, h2, h3, h4, h5, h6, h8, h9, pyTake_len_eq_iff]
      · simp [h1, h2, h3, h4, h5, h6, h8, h9, pyTake_len_eq_iff]
    · simp [h1, h2, h3, h4, h5, h6, h8, pyTake_len_eq_iff]

/-! ## C5: native-select option matching -/

lemma some_or {α : Type} (a : α) (o : Option α) : (some a).or o = some a := rfl

/-- Walk a list keeping the index of the most recent element satisfying p:
the accumulator form of "the last index whose element satisfies p". -/
def lastIdxAux {α : Type} (p : α → Bool) : List α → Nat → Option Nat → Option Nat
  | [], _, acc => acc
  | a :: l, i, acc => lastIdxAux p l (i + 1) (if p a then some i else acc)

/-- The greatest index of an element satisfying p, if any. -/
def lastIdx? {α : Type} (p : α → Bool) (l : List α) : Option Nat :=
  lastIdxAux p l 0 none

/-- The selection rule of the amended claim, stated from the spec wording: exact
label match first, then exact value match, then the scan outcome, which is
the first case-insensitively exact option if one exists and otherwise the
last option whose stripped label or value contains the target. -/
def claimSelect (options : List (String × String)) (value : String) : Option Nat :=
  let vs := pyStrip value
  if vs = "" then none
  else
    match options.findIdx? (fun o => o.1 = vs) with
    | some i => some i
    | none =>
      match options.findIdx? (fun o => o.2 = vs) with
      | some i => some i
      | none =>
        let target := pyLower vs
        match options.findIdx? (optExactCi target) with
        | some i => some i
        | none => lastIdx? (optContains target) options

lemma lastIdxAux_acc {α : Type} (p : α → Bool) :
    ∀ (l : List α) (i : Nat) (acc : Option Nat),
      lastIdxAux p l i acc = (lastIdxAux p l i none).or acc := by
  intro l
  induction l with
  | nil => intro i acc; simp [lastIdxAux]
  | cons a l ih =>
    intro i acc
    by_cases hp : p a
    · simp only [lastIdxAux, hp, if_pos]
      rw [ih _ (some i), Option.or_assoc, some_or]
    · simp only [lastIdxAux, hp, if_neg, Bool.false_eq_true, if_false]
      rw [ih _ acc]

lemma selectScan_spec (target : String) :
    ∀ (opts : List (String × String)) (i : Nat) (best : Option Nat),
      selectScan target opts i best =
        (opts.findIdx? (optExactCi target) i).or
          ((lastIdxAux (optContains target) opts i none).or best) := by
  intro opts
  induction opts with
  | nil => intro i best; simp [selectScan, lastIdxAux, List.findIdx?_nil]
  | cons o rest ih =>
    intro i best
    by_cases hx : optExactCi target o
    · simp only [selectScan, hx, if_pos, List.findIdx?_cons, if_true]
      rfl
    · by_cases hc : optContains target o
      · simp only [selectScan, hx, hc, Bool.false_eq_true, if_false, if_pos,
          List.findIdx?_cons, lastIdxAux]
        rw [ih _ (some i), lastIdxAux_acc _ _ _ (some i), Option.or_assoc, some_or]
      · simp only [selectScan, hx, hc, Bool.false_eq_true, if_false,
          List.findIdx?_cons, lastIdxAux]
        rw [ih _ best]

/-- C5 counterexample: for the target x over the options (Alpha x, a) and
(Beta x, b), no exact match exists, both options contain the target, and the
code selects index 1 (the last containing option) while the first containing
option has index 0. -/
theorem select_option_cex :
    select_option [("Alpha x", "a"), ("Beta x", "b")] "x" = some 1 ∧
    List.findIdx? (optContains "x") [("Alpha x", "a"), ("Beta x", "b")] = some 0 := by
  constructor
  · decide
  · decide

/-- C5 (amended: the substring stage selects the first case-insensitively
exact option, or failing that the last option whose visible text or value
contains the target, rather than the first such option).  The fill returns
false, modelled as none, exactly when no option matches any rule. -/
theorem select_option_spec (options : List (String × String)) (value : String) :
    select_option options value = claimSelect options value := by
  unfold select_option claimSelect
  by_cases hv : pyStrip value = ""
  · simp [hv]
  · simp only [hv, if_neg, if_false]
    cases options.findIdx? (fun o => o.1 = pyStrip value) with
    | some i => rfl
    | none =>
      cases options.findIdx? (fun o => o.2 = pyStrip value) with
      | some i => rfl
      | none =>
        simp only []
        rw [selectScan_spec, Option.or_none]
        cases hfi : options.findIdx? (optExactCi (pyLower (pyStrip value))) 0 with
        | some i => simp [hfi, Option.or]
        | none => simp [hfi, Option.or, lastIdx?]

/-! ## C2, C6, C10: classifier cascade claims -/

/-- A trivial oracle assignment (zero fuzzy scores, absent embedding model)
used to instantiate classify at concrete inputs; the claims proven below hold
for every oracle assignment. -/
def zeroOracles : ClassifierOracles :=
  ⟨fun _ _ => 0, fun _ _ => 0, fun _ => none⟩

lemma toNat_ofNat_valid (n : Nat) (h : n.isValidChar) : (Char.ofNat n).toNat = n := by
  rw [Char.ofNat, dif_pos h]
  rfl

lemma pyLowerChar_idem (c : Char) : pyLowerChar (pyLowerChar c) = pyLowerChar c := by
  unfold pyLowerChar
  by_cases h : 65 ≤ c.toNat ∧ c.toNat ≤ 90
  · rw [if_pos h]
    have hv : (c.toNat + 32).isValidChar := by
      left
      omega
    rw [toNat_ofNat_valid _ hv, if_neg (by omega)]
  · simp only [if_neg h]

lemma pyLower_idem (s : String) : pyLower (pyLower s) = pyLower s := by
  apply String.ext
  simp only [pyLower, List.map_map]
  have hfun : pyLowerChar ∘ pyLowerChar = pyLowerChar := funext pyLowerChar_idem
  rw [hfun]

lemma pyLower_empty_iff (s : String) : pyLower s = "" ↔ s = "" := by
  constructor
  · intro h
    have hdata : (pyLower s).data = [] := by rw [h]
    apply String.ext
    simpa [pyLower] using hdata
  · intro h
    rw [h]
    rfl

lemma normAttrs_mapLower (A : List (String × String)) :
    normAttrs (A.map (fun kv => (kv.1, pyLower kv.2))) = normAttrs A := by
  induction A with
  | nil => rfl
  | cons kv rest ih =>
    unfold normAttrs at ih ⊢
    simp only [List.map_cons, List.filterMap_cons]
    by_cases h : kv.2 = ""
    · rw [h]
      have hl : pyLower "" = "" := rfl
      simp [hl, ih]
    · have h2 : pyLower kv.2 ≠ "" := fun hc => h ((pyLower_empty_iff kv.2).mp hc)
      simp [h, h2, pyLower_idem, ih]

/-- C10.  classify is invariant under lowercasing its text argument and every
attribute value (keys and the element type are untouched): the cascade only
ever sees the lowercased text and the value-lowercased attribute dict, and
lowercasing is idempotent. -/
theorem classify_case_invariant (H : ClassifierOracles) (text element_type : String)
    (attributes : List (String × String)) (mc : Nat) (um : Bool) :
    classify H text element_type attributes mc um =
      classify H (pyLower text) element_type
        (attributes.map (fun kv => (kv.1, pyLower kv.2))) mc um := by
  unfold classify
  rw [pyLower_idem, normAttrs_mapLower]

/-- C2 counterexample: for the tag-type button, the combined text contains
the captcha keyword, yet classify returns (submit, 98), because the button
hard stop precedes the captcha check. -/
theorem classify_captcha_cex :
    captchaHit (combinedText (pyLower "please solve the captcha") (normAttrs [])) = true ∧
    classify zeroOracles "please solve the captcha" "button" [] 70 true = ("submit", 98) := by
  constructor
  · decide
  · decide

/-- C2 (amended to exclude the button element type, whose submit hard stop
precedes the captcha check).  For every oracle assignment, text, attribute
bag and configuration, if any captcha keyword occurs in the combined
normalized text then classify returns (captcha, 100), whatever the HTML type
attribute and the downstream stages would say. -/
theorem classify_captcha_spec (H : ClassifierOracles) (text element_type : String)
    (attributes : List (String × String)) (mc : Nat) (um : Bool)
    (hbtn : element_type ≠ "button")
    (hcap : captchaHit (combinedText (pyLower text) (normAttrs attributes)) = true) :
    classify H text element_type attributes mc um = ("captcha", 100) := by
  simp only [classify, classifyNorm]
  rw [if_neg hbtn, if_pos hcap]

/-- Witness for C2 at a concrete non-button input containing the captcha
keyword. -/
theorem classify_captcha_spec_witness :
    classify zeroOracles "captcha" "input" [] 70 true = ("captcha", 100) :=
  classify_captcha_spec zeroOracles "captcha" "input" [] 70 true (by decide) (by decide)

/-- C6 counterexample: an element with tag type button and attribute
type=email classifies as (submit, 98), not (email, 95): the button hard stop
precedes the type-attribute analysis. -/
theorem classify_email_cex :
    dictGet (normAttrs [("type", "email")]) "type" = "email" ∧
    captchaHit (combinedText (pyLower "") (normAttrs [("type", "email")])) = false ∧
    classify zeroOracles "" "button" [("type", "email")] 70 true = ("submit", 98) := by
  refine ⟨by decide, by decide, by decide⟩

/-- C6 (amended to exclude the button element type, whose submit hard stop
precedes the type-attribute analysis).  For every oracle assignment, text,
attribute bag and configuration, if the normalized attribute bag maps type to
email and no captcha keyword occurs in the combined text, classify returns
(email, 95), whatever other captcha-like but non-matching text is present. -/
theorem classify_email_spec (H : ClassifierOracles) (text element_type : String)
    (attributes : List (String × String)) (mc : Nat) (um : Bool)
    (hbtn : element_type ≠ "button")
    (hcap : captchaHit (combinedText (pyLower text) (normAttrs attributes)) = false)
    (hty : dictGet (normAttrs attributes) "type" = "email") :
    classify H text element_type attributes mc um = ("email", 95) := by
  simp only [classify, classifyNorm]
  rw [if_neg hbtn, if_neg (by simp [hcap]), hty]
  simp

/-- Witness for C6 at a concrete non-button input whose type attribute is
email. -/
theorem classify_email_spec_witness :
    classify zeroOracles "" "input" [("type", "email")] 70 true = ("email", 95) :=
  classify_email_spec zeroOracles "" "input" [("type", "email")] 70 true
    (by decide) (by decide) (by decide)
